import Mathlib

/-
Shallow embedding of src/mcp_proxy.py, a reverse proxy (class MCPProxy) that
forwards inference requests to an upstream backend and exposes a health check.

Modelling conventions:
- The upstream backend is an oracle function from the outbound request the
  proxy constructs to an outcome: either a full response, or a raised
  exception with a cause (timeout, connection refused, other).  The Python
  code catches every exception identically, so the cause is carried only to
  let theorems speak about transient causes.
- Each handler returns, next to its HTTP response, the list of upstream
  requests it attempted, so that theorems can state how many upstream
  connections a handler makes (zero attempts means the upstream was never
  contacted).
- A request body is the pair of its raw bytes (a String) and the outcome of
  the standard-library JSON decode of those bytes (an Option Json: none when
  json.loads raises).  The decoder itself is the Python standard library,
  external to this repository, so it is represented by its outcome.
- The health-check handler probes the upstream live on every call; its probe
  outcome carries the observed latency, which the code ignores, so that
  theorems can compare against the latency-based health states of the
  specification.
-/

namespace MCPProxy

/-- Python JSON values as produced by json.loads (numbers restricted to
integers; the claims only inspect the model field, normally a string). -/
inductive Json where
  | null : Json
  | bool : Bool → Json
  | num : Int → Json
  | str : String → Json
  | arr : List Json → Json
  | obj : List (String × Json) → Json

/-- Python truthiness (bool(v)) of a JSON value, used by the source's
`if not model` check. -/
def falsy : Json → Bool
  | Json.null => true
  | Json.bool b => !b
  | Json.num n => n == 0
  | Json.str s => s.isEmpty
  | Json.arr xs => xs.isEmpty
  | Json.obj kvs => kvs.isEmpty

/-- Python dict lookup on a decoded JSON object: json.loads keeps the last
duplicate key, hence the reversed search. -/
def jsonGet (kvs : List (String × Json)) (k : String) : Option Json :=
  (kvs.reverse.find? (fun kv => kv.1 == k)).map (fun kv => kv.2)

/-- body.get of the model key with default empty string, as in the source's
`body.get('model', '')`. -/
def getModelField (kvs : List (String × Json)) : Json :=
  (jsonGet kvs "model").getD (Json.str "")

/-- An inbound request body: its raw bytes (returned by request.read) and
the result of the standard-library JSON decode of those bytes (returned by
request.json; none when decoding raises). -/
structure Body where
  raw : String
  json : Option Json

/-- An inbound HTTP request as the handlers see it. -/
structure InboundRequest where
  headers : List (String × String)
  body : Body

/-- A response obtained from the upstream backend. -/
structure UpstreamResponse where
  status : Nat
  headers : List (String × String)
  body : String

/-- Cause of an exception raised while contacting the upstream.  The source
catches all of them with one `except Exception` clause. -/
inductive FailureCause where
  | timeout : FailureCause
  | connRefused : FailureCause
  | other : FailureCause

/-- Outcome of one outbound POST to the upstream. -/
inductive UpstreamResult where
  | ok : UpstreamResponse → UpstreamResult
  | exn : FailureCause → UpstreamResult

/-- The outbound request the proxy constructs for the upstream. -/
structure UpstreamRequest where
  url : String
  headers : List (String × String)
  data : String

/-- The upstream backend as an oracle from outbound request to outcome. -/
def Upstream : Type := UpstreamRequest → UpstreamResult

/-- An HTTP response returned by the proxy to its caller. -/
structure Response where
  status : Nat
  headers : List (String × String)
  body : String
deriving DecidableEq

/-- Python str.lstrip of slashes, as in `endpoint.lstrip('/')`. -/
def lstripSlashes (s : String) : String :=
  String.mk (s.toList.dropWhile (fun c => c == '/'))

/-- Python str.lower applied to an HTTP header name, as in the source's
`key.lower()` (ASCII case folding suffices for header names). -/
def lowerName (s : String) : String :=
  String.mk (s.toList.map Char.toLower)

/-- Header filtering on the outbound hop: the source keeps every inbound
header whose lowercased key differs from host (`key.lower() != 'host'`). -/
def dropHostHeader (hs : List (String × String)) : List (String × String) :=
  hs.filter (fun kv => lowerName kv.1 != "host")

/-- The outbound request built in forward_request: target URL is the
(already slash-stripped) upstream base joined to the endpoint, headers are
the inbound headers minus host, data is the raw inbound body. -/
def mkUpstreamRequest (ollamaUrl : String) (req : InboundRequest)
    (endpoint : String) : UpstreamRequest :=
  { url := ollamaUrl ++ "/" ++ lstripSlashes endpoint
    headers := dropHostHeader req.headers
    data := req.body.raw }

/-- The response produced by the source's catch-all except clause:
web.Response(status=500, text="Internal Server Error"). -/
def internalServerError : Response :=
  { status := 500, headers := [], body := "Internal Server Error" }

/-- MCPProxy.forward_request: read the whole inbound body, POST it to the
upstream endpoint with the host header dropped, and copy the upstream
response back (body, status, and all headers); any exception is caught and
mapped to a 500 response.  The second component lists the upstream requests
attempted. -/
def forward_request (ollamaUrl : String) (up : Upstream) (req : InboundRequest)
    (endpoint : String) : Response × List UpstreamRequest :=
  let ureq := mkUpstreamRequest ollamaUrl req endpoint
  match up ureq with
  | UpstreamResult.ok resp =>
      ({ status := resp.status, headers := resp.headers, body := resp.body }, [ureq])
  | UpstreamResult.exn _ => (internalServerError, [ureq])

/-- MCPProxy.handle_mcp_request: decode the body as JSON, reject a missing
or falsy model field with 400, otherwise forward to the generate endpoint.
A decode failure, or a decoded value that is not an object (so that .get
raises AttributeError), is absorbed by the catch-all and yields 500. -/
def handle_mcp_request (ollamaUrl : String) (up : Upstream)
    (req : InboundRequest) : Response × List UpstreamRequest :=
  match req.body.json with
  | some (Json.obj kvs) =>
      if falsy (getModelField kvs) then
        ({ status := 400, headers := [], body := "Model name required" }, [])
      else
        forward_request ollamaUrl up req "generate"
  | _ => (internalServerError, [])

/-- MCPProxy.handle_chat_request: forward to the chat endpoint with no
validation of the body. -/
def handle_chat_request (ollamaUrl : String) (up : Upstream)
    (req : InboundRequest) : Response × List UpstreamRequest :=
  forward_request ollamaUrl up req "chat"

/-- MCPProxy.handle_completion_request: forward to the generate endpoint
with no validation of the body. -/
def handle_completion_request (ollamaUrl : String) (up : Upstream)
    (req : InboundRequest) : Response × List UpstreamRequest :=
  forward_request ollamaUrl up req "generate"

/-- Outcome of the live GET probe the health-check handler issues: an HTTP
status together with the observed latency in milliseconds (which the source
never reads), or a raised exception. -/
inductive ProbeResult where
  | ok : Nat → Nat → ProbeResult
  | exn : ProbeResult

/-- MCPProxy.handle_health_check: issue a live GET to the upstream health
path; answer OK/200 exactly when that probe returns status 200, and
503 Service Unavailable on any other status or on a raised exception.  The
second component lists the URLs probed during the call. -/
def handle_health_check (ollamaUrl : String) (probe : ProbeResult) :
    Response × List String :=
  let probeUrl := ollamaUrl ++ "/health"
  match probe with
  | ProbeResult.ok status _ =>
      if status == 200 then
        ({ status := 200, headers := [], body := "OK" }, [probeUrl])
      else
        ({ status := 503, headers := [], body := "Service Unavailable" }, [probeUrl])
  | ProbeResult.exn =>
      ({ status := 503, headers := [], body := "Service Unavailable" }, [probeUrl])

/-- Sizes of the body chunks forward_request reads: request.read() returns
the whole inbound body as one chunk, and response.read() returns the whole
upstream response body as one chunk (absent when the POST raised). -/
def forwardReadChunks (ollamaUrl : String) (up : Upstream)
    (req : InboundRequest) (endpoint : String) : List Nat :=
  match up (mkUpstreamRequest ollamaUrl req endpoint) with
  | UpstreamResult.ok resp => [req.body.raw.length, resp.body.length]
  | UpstreamResult.exn _ => [req.body.raw.length]

/-- Health states of the specification. -/
inductive HealthState where
  | healthy : HealthState
  | degraded : HealthState
  | down : HealthState
deriving DecidableEq

/-- Modelled from the spec: the Health Monitor's state derived from the most
recent probe outcome — Healthy when the probe succeeded within the latency
threshold, Degraded when the probe succeeded but above the latency
threshold, Down when the probe failed or timed out. -/
def specHealthState (latencyThreshold : Nat) : ProbeResult → HealthState
  | ProbeResult.ok status lat =>
      if status == 200 then
        (if latencyThreshold < lat then HealthState.degraded else HealthState.healthy)
      else HealthState.down
  | ProbeResult.exn => HealthState.down

/-- C1 counterexample: a POST to the chat route whose JSON body is the empty
object (no model field) is forwarded to the upstream anyway — the proxy
answers with the upstream's 200, not 400, and one upstream request is
attempted, so the claim fails on the chat route. -/
theorem c1_chat_skips_validation :
    ((handle_chat_request "http://ollama"
        (fun _ => UpstreamResult.ok ⟨200, [], "generated"⟩)
        ⟨[("Content-Type", "application/json")], ⟨"\x7b\x7d", some (Json.obj [])⟩⟩).1.status
      = 200) ∧
    ((handle_chat_request "http://ollama"
        (fun _ => UpstreamResult.ok ⟨200, [], "generated"⟩)
        ⟨[("Content-Type", "application/json")], ⟨"\x7b\x7d", some (Json.obj [])⟩⟩).2.length
      = 1) := by
  exact ⟨rfl, rfl⟩

/-- C1 (amended): only the mcp route validates the model field — a POST /mcp
whose JSON body is an object with a missing or falsy model field gets a 400
"Model name required" response with no upstream attempt, while /chat and
/completion perform no validation and always attempt exactly one upstream
request. -/
theorem c1_model_validation (ollamaUrl : String) (up : Upstream)
    (req : InboundRequest) (kvs : List (String × Json))
    (hjson : req.body.json = some (Json.obj kvs))
    (hfalsy : falsy (getModelField kvs) = true) :
    handle_mcp_request ollamaUrl up req
      = ({ status := 400, headers := [], body := "Model name required" }, []) ∧
    (handle_chat_request ollamaUrl up req).2.length = 1 ∧
    (handle_completion_request ollamaUrl up req).2.length = 1 := by
  refine ⟨?_, ?_, ?_⟩
  · simp [handle_mcp_request, hjson, hfalsy]
  · simp only [handle_chat_request, forward_request]
    cases up (mkUpstreamRequest ollamaUrl req "chat") <;> rfl
  · simp only [handle_completion_request, forward_request]
    cases up (mkUpstreamRequest ollamaUrl req "generate") <;> rfl

/-- C1 witness: the amended theorem applied to a concrete model-less body. -/
theorem c1_model_validation_witness :
    handle_mcp_request "http://ollama" (fun _ => UpstreamResult.ok ⟨200, [], "gen"⟩)
        ⟨[], ⟨"\x7b\x7d", some (Json.obj [])⟩⟩
      = ({ status := 400, headers := [], body := "Model name required" }, []) ∧
    (handle_chat_request "http://ollama" (fun _ => UpstreamResult.ok ⟨200, [], "gen"⟩)
        ⟨[], ⟨"\x7b\x7d", some (Json.obj [])⟩⟩).2.length = 1 ∧
    (handle_completion_request "http://ollama" (fun _ => UpstreamResult.ok ⟨200, [], "gen"⟩)
        ⟨[], ⟨"\x7b\x7d", some (Json.obj [])⟩⟩).2.length = 1 :=
  c1_model_validation "http://ollama" (fun _ => UpstreamResult.ok ⟨200, [], "gen"⟩)
    ⟨[], ⟨"\x7b\x7d", some (Json.obj [])⟩⟩ [] rfl rfl

/-- C2: when the upstream POST succeeds, the proxy's response body, status
code, and headers equal the upstream response's verbatim. -/
theorem c2_verbatim_relay (ollamaUrl : String) (up : Upstream)
    (req : InboundRequest) (endpoint : String) (resp : UpstreamResponse)
    (h : up (mkUpstreamRequest ollamaUrl req endpoint) = UpstreamResult.ok resp) :
    (forward_request ollamaUrl up req endpoint).1
      = { status := resp.status, headers := resp.headers, body := resp.body } := by
  simp [forward_request, h]

/-- C2 witness: the verbatim-relay theorem at a concrete upstream response. -/
theorem c2_verbatim_relay_witness :
    (forward_request "http://ollama"
        (fun _ => UpstreamResult.ok ⟨207, [("X-Extra", "v")], "token stream"⟩)
        ⟨[], ⟨"input", none⟩⟩ "chat").1
      = { status := 207, headers := [("X-Extra", "v")], body := "token stream" } :=
  c2_verbatim_relay "http://ollama"
    (fun _ => UpstreamResult.ok ⟨207, [("X-Extra", "v")], "token stream"⟩)
    ⟨[], ⟨"input", none⟩⟩ "chat" ⟨207, [("X-Extra", "v")], "token stream"⟩ rfl

/-- C3 counterexample: against an upstream whose connect attempt always
times out (a transient cause), the proxy makes exactly one attempt — no
retry — and answers 500, not a 502-equivalent, so the retry claim fails. -/
theorem c3_no_retry_on_timeout :
    ((forward_request "http://ollama" (fun _ => UpstreamResult.exn FailureCause.timeout)
        ⟨[], ⟨"payload", none⟩⟩ "chat").2.length = 1) ∧
    ((forward_request "http://ollama" (fun _ => UpstreamResult.exn FailureCause.timeout)
        ⟨[], ⟨"payload", none⟩⟩ "chat").1.status = 500) := by
  exact ⟨rfl, rfl⟩

/-- C3 (amended): the proxy never retries — every forwarding attempt issues
exactly one upstream request whatever the outcome, and a connect failure of
any cause (transient or not) is immediately terminal with a 500 Internal
Server Error response. -/
theorem c3_single_attempt (ollamaUrl : String) (up : Upstream)
    (req : InboundRequest) (endpoint : String) (c : FailureCause) :
    (forward_request ollamaUrl up req endpoint).2.length = 1 ∧
    (forward_request ollamaUrl (fun _ => UpstreamResult.exn c) req endpoint).1
      = internalServerError := by
  constructor
  · simp only [forward_request]
    cases up (mkUpstreamRequest ollamaUrl req endpoint) <;> rfl
  · rfl

/-- C4 counterexample: a connect timeout and a connection-refused failure
produce byte-for-byte identical proxy responses (and identical attempt
lists), so the structured error body does not distinguish the cause
category, contradicting the claim. -/
theorem c4_causes_indistinguishable :
    forward_request "http://ollama" (fun _ => UpstreamResult.exn FailureCause.timeout)
        ⟨[], ⟨"payload", none⟩⟩ "chat"
      = forward_request "http://ollama" (fun _ => UpstreamResult.exn FailureCause.connRefused)
        ⟨[], ⟨"payload", none⟩⟩ "chat" := by
  rfl

/-- C4 (amended): every forwarding failure, whatever its cause, is absorbed
by the handler (which always returns a response, never propagating the
exception) and maps to one and the same body — status 500, "Internal Server
Error" — so connect, timeout and other upstream exceptions are not
distinguished; only validation failures differ (400 "Model name required"). -/
theorem c4_uniform_error_body (ollamaUrl : String) (req : InboundRequest)
    (endpoint : String) (c : FailureCause) :
    (forward_request ollamaUrl (fun _ => UpstreamResult.exn c) req endpoint).1
      = internalServerError ∧
    (forward_request ollamaUrl (fun _ => UpstreamResult.exn c) req endpoint).1.status
      = 500 ∧
    (forward_request ollamaUrl (fun _ => UpstreamResult.exn c) req endpoint).1.body
      = "Internal Server Error" := by
  exact ⟨rfl, rfl, rfl⟩

/-- C5 counterexample: a probe that succeeds with status 200 but latency far
above the threshold — the state the specification calls Degraded — still gets
an OK/200 health response, not 503, because the handler never reads the
latency. -/
theorem c5_degraded_reported_ok :
    specHealthState 100 (ProbeResult.ok 200 5000) = HealthState.degraded ∧
    (handle_health_check "http://ollama" (ProbeResult.ok 200 5000)).1.status = 200 := by
  exact ⟨rfl, rfl⟩

/-- C5 (amended): the health endpoint returns exactly two possible
responses — OK/200 precisely when the live probe returned HTTP status 200
(whatever its latency, so no Degraded distinction exists), and
503 Service Unavailable on any other status or a raised exception. -/
theorem c5_health_responses (ollamaUrl : String) (p : ProbeResult) :
    ((handle_health_check ollamaUrl p).1
        = { status := 200, headers := [], body := "OK" } ∨
     (handle_health_check ollamaUrl p).1
        = { status := 503, headers := [], body := "Service Unavailable" }) ∧
    ((handle_health_check ollamaUrl p).1.status = 200
      ↔ ∃ lat, p = ProbeResult.ok 200 lat) := by
  cases p with
  | ok s lat =>
      by_cases h : s = 200
      · subst h
        exact ⟨Or.inl rfl, by simp [handle_health_check]⟩
      · constructor
        · right
          simp [handle_health_check, h]
        · simp [handle_health_check, h]
  | exn =>
      exact ⟨Or.inr rfl, by simp [handle_health_check]⟩

/-- C6 counterexample: a GET /health call issues a live probe of the
upstream (the probed-URL list of the call is nonempty), and its response
changes with that live probe's outcome, so it is not the last cached result
of a background loop — the handler has no cached state at all. -/
theorem c6_live_probe_per_call :
    (handle_health_check "http://ollama" (ProbeResult.ok 200 5)).2
      = ["http://ollama/health"] ∧
    (handle_health_check "http://ollama" (ProbeResult.ok 200 5)).1
      ≠ (handle_health_check "http://ollama" ProbeResult.exn).1 := by
  exact ⟨rfl, by decide⟩

/-- C6 (amended): every GET /health call probes the upstream health URL live
exactly once, and the response is computed from that probe's outcome — there
is no cache and no background refresh loop. -/
theorem c6_probe_issued (ollamaUrl : String) (p : ProbeResult) :
    (handle_health_check ollamaUrl p).2 = [ollamaUrl ++ "/health"] ∧
    (handle_health_check ollamaUrl (ProbeResult.ok 200 0)).1
      ≠ (handle_health_check ollamaUrl ProbeResult.exn).1 := by
  constructor
  · cases p with
    | ok s lat =>
        simp only [handle_health_check]
        split <;> rfl
    | exn => rfl
  · show ({ status := 200, headers := [], body := "OK" } : Response)
        ≠ { status := 503, headers := [], body := "Service Unavailable" }
    decide

/-- C7 counterexample: no bound on chunk sizes exists — for any candidate
bound there is a request body whose single whole-body read chunk exceeds it,
because request.read() returns the entire body at once. -/
theorem c7_no_chunk_bound :
    ¬ ∃ C : Nat, ∀ (ollamaUrl endpoint : String) (up : Upstream) (req : InboundRequest),
      ∀ n ∈ forwardReadChunks ollamaUrl up req endpoint, n ≤ C := by
  rintro ⟨C, h⟩
  have hmem : C + 1 ∈ forwardReadChunks "http://ollama"
      (fun _ => UpstreamResult.ok ⟨200, [], String.mk (List.replicate (C + 1) 'b')⟩)
      ⟨[], ⟨"x", none⟩⟩ "chat" := by
    simp [forwardReadChunks, String.length]
  have hle := h "http://ollama" "chat"
    (fun _ => UpstreamResult.ok ⟨200, [], String.mk (List.replicate (C + 1) 'b')⟩)
    ⟨[], ⟨"x", none⟩⟩ (C + 1) hmem
  omega

/-- C7 (amended): the relay buffers whole bodies — when the upstream POST
succeeds the reads are exactly two whole-body chunks, the entire inbound
body (request.read) and the entire upstream response body (response.read),
each of full body length; the entire inbound body is handed to the upstream
POST in one piece; and when the POST raises, the one read performed is still
the whole inbound body.  Chunk sizes are therefore unbounded across
requests, as the counterexample shows. -/
theorem c7_whole_body_buffering (ollamaUrl endpoint : String) (up : Upstream)
    (req : InboundRequest) (resp : UpstreamResponse) (c : FailureCause)
    (h : up (mkUpstreamRequest ollamaUrl req endpoint) = UpstreamResult.ok resp) :
    forwardReadChunks ollamaUrl up req endpoint
      = [req.body.raw.length, resp.body.length] ∧
    (mkUpstreamRequest ollamaUrl req endpoint).data = req.body.raw ∧
    forwardReadChunks ollamaUrl (fun _ => UpstreamResult.exn c) req endpoint
      = [req.body.raw.length] := by
  refine ⟨?_, rfl, rfl⟩
  simp only [forwardReadChunks]
  rw [h]

/-- C7 witness: the whole-body-buffering theorem at a concrete request and
upstream response, whose read chunks are the two full body lengths. -/
theorem c7_whole_body_buffering_witness :
    forwardReadChunks "http://ollama"
        (fun _ => UpstreamResult.ok ⟨200, [], "generated tokens"⟩)
        ⟨[], ⟨"input body", none⟩⟩ "chat"
      = [("input body" : String).length, ("generated tokens" : String).length] ∧
    (mkUpstreamRequest "http://ollama" ⟨[], ⟨"input body", none⟩⟩ "chat").data
      = "input body" ∧
    forwardReadChunks "http://ollama"
        (fun _ => UpstreamResult.exn FailureCause.timeout)
        ⟨[], ⟨"input body", none⟩⟩ "chat"
      = [("input body" : String).length] :=
  c7_whole_body_buffering "http://ollama" "chat"
    (fun _ => UpstreamResult.ok ⟨200, [], "generated tokens"⟩)
    ⟨[], ⟨"input body", none⟩⟩ ⟨200, [], "generated tokens"⟩
    FailureCause.timeout rfl

/-- C8 counterexample: an inbound connection header survives onto the
outbound request (only host is dropped), and an upstream connection header
is copied verbatim into the proxy's response (no response-side filtering),
so transport-specific headers are not regenerated per hop as claimed. -/
theorem c8_transport_headers_forwarded :
    ((forward_request "http://ollama"
        (fun _ => UpstreamResult.ok ⟨200, [("Connection", "close")], "B"⟩)
        ⟨[("Connection", "keep-alive"), ("Host", "proxy.local")], ⟨"payload", none⟩⟩
        "chat").2.map (fun u => u.headers)
      = [[("Connection", "keep-alive")]]) ∧
    ((forward_request "http://ollama"
        (fun _ => UpstreamResult.ok ⟨200, [("Connection", "close")], "B"⟩)
        ⟨[("Connection", "keep-alive"), ("Host", "proxy.local")], ⟨"payload", none⟩⟩
        "chat").1.headers = [("Connection", "close")]) := by
  exact ⟨rfl, rfl⟩

/-- C8 (amended): the outbound request carries every inbound header whose
lowercased key is not host (in particular connection headers are forwarded,
not regenerated), and the proxy's response carries every upstream response
header with no exclusion at all. -/
theorem c8_header_copying (ollamaUrl endpoint : String) (up : Upstream)
    (req : InboundRequest) (resp : UpstreamResponse)
    (h : up (mkUpstreamRequest ollamaUrl req endpoint) = UpstreamResult.ok resp) :
    ((forward_request ollamaUrl up req endpoint).2.map (fun u => u.headers)
      = [req.headers.filter (fun kv => lowerName kv.1 != "host")]) ∧
    (forward_request ollamaUrl up req endpoint).1.headers = resp.headers := by
  simp only [forward_request]
  rw [h]
  exact ⟨rfl, rfl⟩

/-- C8 witness: the header-copying theorem at a concrete request carrying
host and connection headers. -/
theorem c8_header_copying_witness :
    ((forward_request "http://ollama"
        (fun _ => UpstreamResult.ok ⟨200, [("Connection", "close")], "B"⟩)
        ⟨[("Host", "proxy.local"), ("Accept", "*/*")], ⟨"payload", none⟩⟩
        "generate").2.map (fun u => u.headers)
      = [[("Host", "proxy.local"), ("Accept", "*/*")].filter
          (fun kv => lowerName kv.1 != "host")]) ∧
    (forward_request "http://ollama"
        (fun _ => UpstreamResult.ok ⟨200, [("Connection", "close")], "B"⟩)
        ⟨[("Host", "proxy.local"), ("Accept", "*/*")], ⟨"payload", none⟩⟩
        "generate").1.headers = [("Connection", "close")] :=
  c8_header_copying "http://ollama" "generate"
    (fun _ => UpstreamResult.ok ⟨200, [("Connection", "close")], "B"⟩)
    ⟨[("Host", "proxy.local"), ("Accept", "*/*")], ⟨"payload", none⟩⟩
    ⟨200, [("Connection", "close")], "B"⟩ rfl

/-- C9: once the model-field validation passes, the mcp handler is the
completion handler — both forward the untouched inbound request to the
upstream generate endpoint, producing the same upstream request and the
same response. -/
theorem c9_mcp_aliases_completion (ollamaUrl : String) (up : Upstream)
    (req : InboundRequest) (kvs : List (String × Json))
    (hjson : req.body.json = some (Json.obj kvs))
    (hmodel : falsy (getModelField kvs) = false) :
    handle_mcp_request ollamaUrl up req = handle_completion_request ollamaUrl up req := by
  simp [handle_mcp_request, handle_completion_request, hjson, hmodel]

/-- C9 witness: the aliasing theorem at a concrete valid body carrying a
model name. -/
theorem c9_mcp_aliases_completion_witness :
    handle_mcp_request "http://ollama"
        (fun _ => UpstreamResult.ok ⟨200, [], "gen"⟩)
        ⟨[], ⟨"\x7b\"model\": \"llama\"\x7d",
              some (Json.obj [("model", Json.str "llama")])⟩⟩
      = handle_completion_request "http://ollama"
        (fun _ => UpstreamResult.ok ⟨200, [], "gen"⟩)
        ⟨[], ⟨"\x7b\"model\": \"llama\"\x7d",
              some (Json.obj [("model", Json.str "llama")])⟩⟩ :=
  c9_mcp_aliases_completion "http://ollama"
    (fun _ => UpstreamResult.ok ⟨200, [], "gen"⟩)
    ⟨[], ⟨"\x7b\"model\": \"llama\"\x7d",
          some (Json.obj [("model", Json.str "llama")])⟩⟩
    [("model", Json.str "llama")] rfl rfl

/-- C10: a POST /mcp whose body fails JSON decoding is answered with the
catch-all 500 "Internal Server Error" response — not a 400 validation
error — and no upstream request is attempted. -/
theorem c10_bad_json_is_500 (ollamaUrl : String) (up : Upstream)
    (req : InboundRequest) (h : req.body.json = none) :
    handle_mcp_request ollamaUrl up req = (internalServerError, []) := by
  simp [handle_mcp_request, h]

/-- C10 witness: the 500-on-bad-JSON theorem at a concrete non-JSON body. -/
theorem c10_bad_json_is_500_witness :
    handle_mcp_request "http://ollama"
        (fun _ => UpstreamResult.ok ⟨200, [], "gen"⟩)
        ⟨[], ⟨"this is not json", none⟩⟩
      = (internalServerError, []) :=
  c10_bad_json_is_500 "http://ollama"
    (fun _ => UpstreamResult.ok ⟨200, [], "gen"⟩)
    ⟨[], ⟨"this is not json", none⟩⟩ rfl

end MCPProxy
